import Mathlib

/-!
Verification development for the live generation status pipeline of the
wanx repository.  The definitions below are a shallow embedding of:

  * `createLogWebSocket` in `src/src/api/liveApi.ts` (SSE transport adapter),
    and the variant in `src/unnamed/part_006`;
  * the `useLiveVideoGeneration` hook in
    `src/src/hooks/useLiveVideoGeneration.ts` (generation orchestrator):
    `cleanup`, `updateStatus`, `handleLogMessage`, `getVideo`,
    `startStatusPolling` (one timer tick), `startGeneration`.

JavaScript strings are modelled as Lean `String`; the JS string operations
used by the source (`startsWith`, `includes`, `substring`, `split`,
regex match) are implemented below over `List Char` so that every
definition evaluates by kernel reduction.
-/

namespace Wanx

/-- JS `pre`-test: `charsLead p l` holds when `p` is an initial segment
of `l` (character-wise). -/
def charsLead : List Char → List Char → Bool
  | [], _ => true
  | _ :: _, [] => false
  | p :: ps, c :: cs => p == c && charsLead ps cs

/-- JS `s.startsWith(pre)`. -/
def startsWithL (s pre : String) : Bool := charsLead pre.data s.data

/-- Occurrence test of `sub` anywhere in a character list. -/
def charsContain (sub : List Char) : List Char → Bool
  | [] => charsLead sub []
  | c :: cs => charsLead sub (c :: cs) || charsContain sub cs

/-- JS `s.includes(sub)`. -/
def containsS (s sub : String) : Bool := charsContain sub.data s.data

/-- JS `s.substring(n)`: drop the first `n` characters. -/
def strDrop (s : String) (n : Nat) : String := ⟨s.data.drop n⟩

/-- JS `s.split(c)` on a single-character separator. -/
def splitOnChar (c : Char) : List Char → List (List Char)
  | [] => [[]]
  | x :: xs =>
    let r := splitOnChar c xs
    if x == c then [] :: r
    else
      match r with
      | [] => [[x]]
      | y :: ys => (x :: y) :: ys

/-- JS `s.split('/').pop()`: the last path component (split always
returns a non-empty array, so `pop` is total here). -/
def jsSplitPop (s : String) : String :=
  ⟨(splitOnChar '/' s.data).getLastD []⟩

/-- JS truthiness of an optional string field: absent or empty is falsy. -/
def truthyS : Option String → Bool
  | none => false
  | some s => if s = "" then false else true

/-! ## Transport adapter (`createLogWebSocket`)

An inbound SSE frame either fails `JSON.parse` (`unparseable`, carrying
the raw frame text) or parses to an object whose relevant fields are the
optional strings `message`, `log`, `status`, `video_path`. -/

/-- Fields of a parsed SSE frame payload, as read by the adapters. -/
structure SSEData where
  message : Option String
  log : Option String
  status : Option String
  video_path : Option String
deriving Repr, DecidableEq

/-- An inbound frame: raw text that fails JSON parsing, or a parsed payload. -/
inductive SSEEvent where
  | unparseable (raw : String)
  | json (d : SSEData)
deriving Repr, DecidableEq

/-- Observable callback effects of the adapter. `err none` is a
transport-level error object; `err (some s)` is `new Error(s)`. `close`
records `eventSource.close()`. -/
inductive CB where
  | msg (s : String)
  | err (detail : Option String)
  | complete
  | close
deriving Repr, DecidableEq

/-- The `onmessage` handler of `createLogWebSocket` in
`src/src/api/liveApi.ts`, as the list of callback invocations it performs
on one frame.  Mirrors the source: a truthy `message` field is forwarded,
then `status === 'complete'` fires `onComplete` and closes; otherwise a
truthy `log` field is forwarded, then a `DONE:` prefix fires `onComplete`
and closes, and an `ERROR:` prefix fires `onError` with `log.substring(6)`.
A frame that fails to parse forwards the raw text. -/
def onmessage_liveApi : SSEEvent → List CB
  | .unparseable raw => [.msg raw]
  | .json d =>
    if truthyS d.message then
      [.msg (d.message.getD "")] ++
        (if d.status = some "complete" then [.complete, .close] else [])
    else if truthyS d.log then
      let l := d.log.getD ""
      [.msg l] ++
        (if startsWithL l "DONE:" then [.complete, .close]
         else if startsWithL l "ERROR:" then [.err (some (strDrop l 6))]
         else [])
    else []

/-- The `onmessage` handler of the `createLogWebSocket` variant in
`src/unnamed/part_006`: a truthy `message` is forwarded with no further
callback; a truthy `log` is forwarded, and only an `ERROR:` prefix (on a
line that is not a completion line) fires `onError`; a structured
`{status:'complete', video_path}` payload forwards a synthesized
completion line, fires `onComplete` and closes. -/
def onmessage_part006 : SSEEvent → List CB
  | .unparseable raw => [.msg raw]
  | .json d =>
    if truthyS d.message then
      [.msg (d.message.getD "")]
    else if truthyS d.log then
      let l := d.log.getD ""
      [.msg l] ++
        (if startsWithL l "DONE:" || containsS l "Video generation complete" then []
         else if startsWithL l "ERROR:" then [.err (some (strDrop l 6))]
         else [])
    else if d.status = some "complete" then
      if truthyS d.video_path then
        [.msg ("Video generation complete: " ++ jsSplitPop (d.video_path.getD "")),
         .complete, .close]
      else []
    else []

/-- The `onerror` handler of `createLogWebSocket` (both variants):
`onError(error)` followed by `eventSource.close()`. -/
def onerror_cbs : List CB := [CB.err none, CB.close]

/-- Delivery of a frame sequence through a handler: once a frame's
processing closes the channel, no later frame is delivered. -/
def runFrames (handler : SSEEvent → List CB) : List SSEEvent → List CB
  | [] => []
  | e :: es =>
    let out := handler e
    if CB.close ∈ out then out else out ++ runFrames handler es

/-! ## Generation orchestrator (`useLiveVideoGeneration` in
`src/src/hooks/useLiveVideoGeneration.ts`)

React state and refs are modelled as one record; each hook callback is a
state transformer.  Remote calls (`liveApiClient.startGeneration`,
`checkJobStatus`, `getVideo`) are passed in as `Except`-valued results;
`console.error` output is recorded in a `console` field so that
"logs the error" claims are statable. -/

/-- The `step` union of `updateStatus`. -/
inductive Step where
  | analyzing
  | generating
  | rendering
  | complete
deriving Repr, DecidableEq

/-- One `ProcessingStatus` value as written by `updateStatus`. -/
structure ProgressState where
  step : Step
  progress : Int
  message : String
deriving Repr, DecidableEq

/-- The hook's React state (`useState` values), the store fields it
writes (`storeVideoUrl`, `processingStatus`, `currentPage`), its refs
(`webSocketOpen` for `webSocketRef`, `simulatorOn` for `logSimulatorRef`,
`pollerOn` for `statusPollingRef`), and the `console.error` transcript. -/
structure HookState where
  jobId : Option String
  logs : List String
  error : Option String
  isGenerating : Bool
  videoUrl : Option String
  storeVideoUrl : Option String
  processingStatus : Option ProgressState
  currentPage : String
  webSocketOpen : Bool
  simulatorOn : Bool
  pollerOn : Bool
  isWebSocketConnected : Bool
  console : List String
deriving Repr, DecidableEq

/-- The initial hook state on the processing page, before any job. -/
def initState : HookState :=
  ⟨none, [], none, false, none, none, none, "processing",
   false, false, false, false, []⟩

/-- `cleanup`: closes the transport if open, stops the simulator if
running, clears the polling interval. -/
def cleanup (st : HookState) : HookState :=
  { st with webSocketOpen := false, simulatorOn := false, pollerOn := false }

/-- `updateStatus(progress, message, step)`: writes `setProcessingStatus`. -/
def updateStatus (progress : Int) (message : String) (step : Step)
    (st : HookState) : HookState :=
  { st with processingStatus := some ⟨step, progress, message⟩ }

/-- JS regex character class `[a-f0-9-]`. -/
def isJobIdChar (c : Char) : Bool :=
  ('a' ≤ c && c ≤ 'f') || ('0' ≤ c && c ≤ '9') || c == '-'

/-- One attempt of the regex `/Video generation complete: ([a-f0-9-]+)_tiktok/`
at the head of a character list: the literal, then a non-empty maximal
run of `[a-f0-9-]` characters, then `_tiktok`.  (The class excludes `_`,
so the greedy run needs no backtracking.) -/
def matchCompleteAt (l : List Char) : Option String :=
  let lit := "Video generation complete: ".data
  if charsLead lit l then
    let rest := l.drop lit.length
    let tok := rest.takeWhile isJobIdChar
    if tok ≠ [] ∧ charsLead "_tiktok".data (rest.drop tok.length) then
      some ⟨tok⟩
    else none
  else none

/-- Leftmost regex match: try each start position in order. -/
def findCompleteMatch : List Char → Option String
  | [] => none
  | c :: cs =>
    match matchCompleteAt (c :: cs) with
    | some t => some t
    | none => findCompleteMatch cs

/-- `log.match(/Video generation complete: ([a-f0-9-]+)_tiktok/)`,
returning the captured group. -/
def extractJobId (s : String) : Option String := findCompleteMatch s.data

/-- The keyword classification of `handleLogMessage` (everything after the
append): four `includes`-keyword families mapping to coarse progress
buckets; the completion family also extracts a job id from the line. -/
def classifyLog (log : String) (st : HookState) : HookState :=
  if containsS log "Analyzing" || containsS log "Extracting" ||
     containsS log "Transforming" || containsS log "Starting to process" then
    updateStatus 30 log .analyzing st
  else if containsS log "Rendering" || containsS log "Generating" ||
          containsS log "Creating" then
    updateStatus 60 log .generating st
  else if containsS log "Applying" || containsS log "Encoding" ||
          containsS log "Combining" || containsS log "Adding" then
    updateStatus 80 log .rendering st
  else if containsS log "complete" || containsS log "Complete" ||
          containsS log "Video generation complete" then
    let st := updateStatus 95 "Video generation complete, retrieving video..."
      .rendering st
    match extractJobId log with
    | some i => { st with jobId := some i }
    | none => st
  else st

/-- `handleLogMessage(log)`: unconditionally appends the line to the log
sink (`setLogs(prev => [...prev, log])`), then classifies it. -/
def handleLogMessage (log : String) (st : HookState) : HookState :=
  classifyLog log { st with logs := st.logs ++ [log] }

/-- The artifact returned by `liveApiClient.getVideo`: a binary blob
(modelled by the object URL that `URL.createObjectURL` yields for it) or
a URL string. -/
inductive VideoData where
  | blob (objectUrl : String)
  | url (s : String)
deriving Repr, DecidableEq

/-- The demo artifact URL returned by `liveApiClient.mock.getVideo`. -/
def demoVideoUrl : String :=
  "https://github.com/erniesg/wanx/raw/refs/heads/main/backend/assets/demo/output.mp4"

/-- `setVideoUrl(url); storeSetVideoUrl(url)`. -/
def setBothVideoUrl (u : String) (st : HookState) : HookState :=
  { st with videoUrl := some u, storeVideoUrl := some u }

/-- `getVideo(id)`: sets status to 95/rendering, fetches the artifact
(falling back to the demo URL and logging the error when the live fetch
rejects), then sets status to 100/complete and navigates to the
completion page.  The trailing `liveApiClient.cleanup` call is remote and
best-effort (its errors are swallowed), so it changes no client state. -/
def getVideo (isLiveMode : Bool) (apiRes : Except String VideoData)
    (st : HookState) : HookState :=
  let st := updateStatus 95 "Retrieving generated video..." .rendering st
  let st :=
    if isLiveMode then
      match apiRes with
      | .ok (.blob u) => setBothVideoUrl u st
      | .ok (.url u) => setBothVideoUrl u st
      | .error e => setBothVideoUrl demoVideoUrl
          { st with console := st.console ++ [e] }
    else setBothVideoUrl demoVideoUrl st
  let st := updateStatus 100 "Video generation complete!" .complete st
  { st with currentPage := "completion" }

/-- A `checkJobStatus` response body. -/
structure StatusResponse where
  status : String
  progress : Option Int
  message : Option String
  logs : Option (List String)
deriving Repr, DecidableEq

/-- The threshold mapping of a poller tick: `progress` to `step`.
Mirrors the source chain `<30 / <60 / <100 / else`. -/
def classifyProgress (p : Int) : Step :=
  if p < 30 then .analyzing
  else if p < 60 then .generating
  else if p < 100 then .rendering
  else .complete

/-- The progress section of a poller tick:
`if (status.progress !== undefined && status.message)` update the status
with the threshold-mapped step. -/
def tickProgressUpdate (resp : StatusResponse) (st : HookState) : HookState :=
  match resp.progress, resp.message with
  | some p, some m => if m = "" then st else updateStatus p m (classifyProgress p) st
  | _, _ => st

/-- The log section of a poller tick: append the entries of `status.logs`
that are not in `cap`, where `cap` is the `logs` array captured by the
interval callback's closure when `startStatusPolling` was invoked (NOT
the current sink — React state updates after that point do not change
the captured array). -/
def tickAppendLogs (cap : List String) (resp : StatusResponse)
    (st : HookState) : HookState :=
  match resp.logs with
  | some ls =>
    let newLogs := ls.filter (fun l => !(cap.contains l))
    if newLogs.isEmpty then st else { st with logs := st.logs ++ newLogs }
  | none => st

/-- One tick of the `startStatusPolling` interval: on a rejected
`checkJobStatus` the error is logged and swallowed; otherwise the
progress and log sections run, then a `complete` status clears the
interval and fetches the video, and an `error` status clears the
interval and sets the error message. -/
def pollTick (cap : List String) (res : Except String StatusResponse)
    (isLiveMode : Bool) (videoRes : Except String VideoData)
    (st : HookState) : HookState :=
  match res with
  | .error e => { st with console := st.console ++ [e] }
  | .ok resp =>
    let st1 := tickProgressUpdate resp st
    let st2 := tickAppendLogs cap resp st1
    if resp.status = "complete" then
      getVideo isLiveMode videoRes { st2 with pollerOn := false }
    else if resp.status = "error" then
      let fallbackMsg :=
        match resp.message with
        | some m => if m = "" then "An error occurred during video generation" else m
        | none => "An error occurred during video generation"
      { st2 with pollerOn := false, error := some fallbackMsg }
    else st2

/-- A `startGeneration` response body. -/
structure StartResponse where
  job_id : String
  status : String
deriving Repr, DecidableEq

/-- `connectToWebSocket(id)`: in demo mode the mock simulator is started;
in live mode the SSE transport is opened (`sseOk` models whether the
`createLogWebSocket` call itself throws — its catch falls back to
polling). -/
def connectToWebSocket (isLiveMode : Bool) (sseOk : Bool)
    (st : HookState) : HookState :=
  if isLiveMode then
    if sseOk then
      { st with webSocketOpen := true, isWebSocketConnected := true }
    else
      { st with isWebSocketConnected := false, pollerOn := true }
  else
    { st with isWebSocketConnected := true, simulatorOn := true }

/-- The opening sequence of `startGeneration`, run before the start
result is consumed: `setIsGenerating(true)`, `setLogs([])`,
`setError(null)`, `setVideoUrl(null)`, `storeSetVideoUrl(null)`,
`cleanup()`, `updateStatus(10, 'Connecting to generation service...',
'analyzing')`. -/
def startGenPrelude (st : HookState) : HookState :=
  let st := { st with isGenerating := true, logs := [], error := none,
                      videoUrl := none, storeVideoUrl := none }
  let st := cleanup st
  updateStatus 10 "Connecting to generation service..." .analyzing st

/-- The remainder of `startGeneration` after the prelude: call
`liveApiClient.startGeneration`; if it rejects, log the error and fall
back to `liveApiClient.mock.startGeneration` (which always resolves with
a fresh mock job id, modelled by `mockJobId`); record the job id, set
status to 20/analyzing, and connect to the stream. -/
def startAfterPrelude (startRes : Except String StartResponse)
    (mockJobId : String) (sseOk : Bool) (st : HookState) : HookState :=
  let response : StartResponse :=
    match startRes with
    | .ok r => r
    | .error _ => ⟨mockJobId, "processing"⟩
  let st :=
    match startRes with
    | .ok _ => st
    | .error e => { st with console := st.console ++ [e] }
  let st := { st with jobId := some response.job_id }
  let st := updateStatus 20 "Generation started, connecting to log stream..."
    .analyzing st
  connectToWebSocket true sseOk st

/-- `startGeneration()`: in demo mode it returns immediately
(`if (!isLiveMode) return`), changing nothing; otherwise it runs the
prelude and then the start/connect sequence. -/
def startGeneration (isLiveMode : Bool) (startRes : Except String StartResponse)
    (mockJobId : String) (sseOk : Bool) (st : HookState) : HookState :=
  if isLiveMode then
    startAfterPrelude startRes mockJobId sseOk (startGenPrelude st)
  else st

/-! ## Helper lemmas (shared by the claim theorems below) -/

/-- A parsed frame with an `ERROR:`-only `log` field: forwarded to
`onMessage` first, then `onError` fires with the remainder. -/
theorem onmessage_error_frame (l : String) (h0 : l ≠ "")
    (he : startsWithL l "ERROR:" = true) (hd : startsWithL l "DONE:" = false) :
    onmessage_liveApi (.json ⟨none, some l, none, none⟩) =
      [CB.msg l, CB.err (some (strDrop l 6))] := by
  simp [onmessage_liveApi, truthyS, h0, he, hd]

/-- A parsed frame with a `DONE:` `log` field: forwarded to `onMessage`
first, then `onComplete` fires and the channel closes. -/
theorem onmessage_done_frame (l : String) (h0 : l ≠ "")
    (hd : startsWithL l "DONE:" = true) :
    onmessage_liveApi (.json ⟨none, some l, none, none⟩) =
      [CB.msg l, CB.complete, CB.close] := by
  simp [onmessage_liveApi, truthyS, h0, hd]

/-- A parsed frame with a `message` field and `status = 'complete'`:
forwarded to `onMessage` first, then `onComplete` fires and the channel
closes. -/
theorem onmessage_message_complete (m : String) (hm : m ≠ "") :
    onmessage_liveApi (.json ⟨some m, none, some "complete", none⟩) =
      [CB.msg m, CB.complete, CB.close] := by
  simp [onmessage_liveApi, truthyS, hm]

/-- The classification step never touches the log sink. -/
theorem classifyLog_logs (log : String) (st : HookState) :
    (classifyLog log st).logs = st.logs := by
  unfold classifyLog updateStatus
  repeat' split
  all_goals rfl

/-- `getVideo` never touches the polling-interval ref. -/
theorem getVideo_pollerOn (lm : Bool) (vr : Except String VideoData)
    (st : HookState) : (getVideo lm vr st).pollerOn = st.pollerOn := by
  rcases vr with e | (u | u) <;> cases lm <;> rfl

/-! ## Claim C1 -/

/-- C1, counterexample: the claim says the text of an `ERROR:` frame (or
a completion frame) is never forwarded to `onMessage`; but the handler in
`src/src/api/liveApi.ts` forwards the frame text to `onMessage` before it
checks the sentinels, so `onMessage` does receive it. -/
theorem c1_counterexample :
    CB.msg "ERROR:boom" ∈
      onmessage_liveApi (.json ⟨none, some "ERROR:boom", none, none⟩) ∧
    CB.msg "DONE:ok" ∈
      onmessage_liveApi (.json ⟨none, some "DONE:ok", none, none⟩) := by
  decide

/-- C1, amended: for an inbound frame whose `log` field starts with
`ERROR:`, `onError` fires with the text after the prefix; for a `DONE:`
frame (or a `message` frame with `status = 'complete'`), `onComplete`
fires; but in each case the frame's text is first forwarded to
`onMessage`, so sentinel frames do appear as plain lines in the log
sink. -/
theorem c1_sentinel_frames_also_forwarded
    (l l2 m : String) (h0 : l ≠ "") (he : startsWithL l "ERROR:" = true)
    (hd : startsWithL l "DONE:" = false)
    (h02 : l2 ≠ "") (hd2 : startsWithL l2 "DONE:" = true)
    (hm : m ≠ "") :
    onmessage_liveApi (.json ⟨none, some l, none, none⟩) =
      [CB.msg l, CB.err (some (strDrop l 6))] ∧
    onmessage_liveApi (.json ⟨none, some l2, none, none⟩) =
      [CB.msg l2, CB.complete, CB.close] ∧
    onmessage_liveApi (.json ⟨some m, none, some "complete", none⟩) =
      [CB.msg m, CB.complete, CB.close] :=
  ⟨onmessage_error_frame l h0 he hd, onmessage_done_frame l2 h02 hd2,
   onmessage_message_complete m hm⟩

/-- C1, witness for the amended theorem at concrete frames. -/
theorem c1_sentinel_frames_also_forwarded_witness :
    (("ERROR:boom" : String) ≠ "" ∧ startsWithL "ERROR:boom" "ERROR:" = true ∧
     startsWithL "ERROR:boom" "DONE:" = false ∧ ("DONE:ok" : String) ≠ "" ∧
     startsWithL "DONE:ok" "DONE:" = true ∧ ("All complete" : String) ≠ "") ∧
    (onmessage_liveApi (.json ⟨none, some "ERROR:boom", none, none⟩) =
      [CB.msg "ERROR:boom", CB.err (some (strDrop "ERROR:boom" 6))] ∧
     onmessage_liveApi (.json ⟨none, some "DONE:ok", none, none⟩) =
      [CB.msg "DONE:ok", CB.complete, CB.close] ∧
     onmessage_liveApi (.json ⟨some "All complete", none, some "complete", none⟩) =
      [CB.msg "All complete", CB.complete, CB.close]) :=
  ⟨⟨by decide, by decide, by decide, by decide, by decide, by decide⟩,
   c1_sentinel_frames_also_forwarded "ERROR:boom" "DONE:ok" "All complete"
     (by decide) (by decide) (by decide) (by decide) (by decide) (by decide)⟩

/-! ## Claim C2 -/

/-- C2, counterexample: the claim says a rejected `start` ends the
attempt in Failed with a non-empty error, progress 0, no job id and no
transport; but on a rejected `start` the hook falls back to the mock
start path, records the mock job id, leaves `error` null, sets status to
20/analyzing and opens the transport. -/
theorem c2_counterexample :
    (startGeneration true (Except.error "network error") "mock-123" true
        initState).error = none ∧
    (startGeneration true (Except.error "network error") "mock-123" true
        initState).jobId = some "mock-123" ∧
    (startGeneration true (Except.error "network error") "mock-123" true
        initState).webSocketOpen = true ∧
    (startGeneration true (Except.error "network error") "mock-123" true
        initState).processingStatus =
      some ⟨Step.analyzing, 20, "Generation started, connecting to log stream..."⟩ := by
  decide

/-- C2, amended: when the job client's `start` rejects, the hook logs the
error and falls back to `mock.startGeneration`: the mock job id is
recorded, the transport adapter is opened (no poller), the externally
observed error stays null, and ProgressState advances to 20/analyzing —
the attempt does not end in Failed and no start failure is surfaced. -/
theorem c2_start_failure_falls_back_to_mock (e mockId : String)
    (st : HookState) :
    (startGeneration true (Except.error e) mockId true st).error = none ∧
    (startGeneration true (Except.error e) mockId true st).jobId = some mockId ∧
    (startGeneration true (Except.error e) mockId true st).webSocketOpen = true ∧
    (startGeneration true (Except.error e) mockId true st).pollerOn = false ∧
    (startGeneration true (Except.error e) mockId true st).isGenerating = true ∧
    (startGeneration true (Except.error e) mockId true st).console =
      st.console ++ [e] ∧
    (startGeneration true (Except.error e) mockId true st).processingStatus =
      some ⟨Step.analyzing, 20, "Generation started, connecting to log stream..."⟩ :=
  ⟨rfl, rfl, rfl, rfl, rfl, rfl, rfl⟩

/-! ## Claim C3 -/

/-- C3, counterexample: after a completion signal has been processed
(ProgressState is 100/complete, page is completion), a further inbound
log line is still appended to the log sink and still rewrites
ProgressState — terminal state is not guarded. -/
theorem c3_counterexample :
    (handleLogMessage "Rendering scene 1 of 3..."
        (getVideo true (Except.ok (VideoData.url "blob:v")) initState)).logs ≠
      (getVideo true (Except.ok (VideoData.url "blob:v")) initState).logs ∧
    (handleLogMessage "Rendering scene 1 of 3..."
        (getVideo true (Except.ok (VideoData.url "blob:v")) initState)).processingStatus ≠
      (getVideo true (Except.ok (VideoData.url "blob:v")) initState).processingStatus := by
  decide

/-- C3, amended: once the poller observes a `complete` status its
interval is cleared, so no further poller tick fires; but inbound
push-channel messages are not guarded by terminal state — any later log
line is still appended to the log sink (and may still update
ProgressState), whatever state the orchestrator is in. -/
theorem c3_terminal_not_guarded (log : String) (st st2 : HookState)
    (cap : List String) (lm : Bool) (vr : Except String VideoData)
    (resp : StatusResponse) (h : resp.status = "complete") :
    (handleLogMessage log st).logs = st.logs ++ [log] ∧
    (pollTick cap (Except.ok resp) lm vr st2).pollerOn = false := by
  constructor
  · show (classifyLog log _).logs = _
    rw [classifyLog_logs]
  · simp only [pollTick, h, if_pos]
    rw [getVideo_pollerOn]

/-- C3, witness for the amended theorem at a concrete line and tick. -/
theorem c3_terminal_not_guarded_witness :
    (StatusResponse.status ⟨"complete", none, none, none⟩ = "complete") ∧
    ((handleLogMessage "late line" initState).logs = initState.logs ++ ["late line"] ∧
     (pollTick [] (Except.ok ⟨"complete", none, none, none⟩) false
        (Except.ok (VideoData.url "u")) initState).pollerOn = false) :=
  ⟨rfl, c3_terminal_not_guarded "late line" initState initState [] false
      (Except.ok (VideoData.url "u")) ⟨"complete", none, none, none⟩ rfl⟩

/-! ## Claim C4 -/

/-- C4: the tick filters `status.logs` against the `logs` array captured
by the interval callback's closure when polling started, not against the
current sink.  With an empty captured snapshot, a sink that already holds
"step one" (appended by an earlier tick), and a tick whose `logs` is
["step one"], the entry is appended a second time — contradicting the
dedupe law, which says entries already present verbatim (including those
appended by earlier poller ticks) are never appended twice. -/
theorem c4_stale_snapshot_duplicates :
    (pollTick [] (Except.ok ⟨"processing", none, none, some ["step one"]⟩) true
      (Except.ok (VideoData.url "u"))
      { initState with logs := ["step one"] }).logs =
    ["step one", "step one"] := by
  decide

/-! ## Claim C5 -/

/-- C5: when the live artifact fetch rejects after completion, `getVideo`
still reaches the terminal outcome: the demo placeholder URL is published
as the artifact (both locally and to the store), ProgressState is set to
100/complete, the page moves to completion, the fetch error is logged to
the console, and the externally observed error field is left untouched
(the failure is not surfaced as fatal). -/
theorem c5_artifact_fetch_fallback (e : String) (st : HookState) :
    (getVideo true (Except.error e) st).videoUrl = some demoVideoUrl ∧
    (getVideo true (Except.error e) st).storeVideoUrl = some demoVideoUrl ∧
    (getVideo true (Except.error e) st).processingStatus =
      some ⟨Step.complete, 100, "Video generation complete!"⟩ ∧
    (getVideo true (Except.error e) st).currentPage = "completion" ∧
    (getVideo true (Except.error e) st).error = st.error ∧
    (getVideo true (Except.error e) st).console = st.console ++ [e] :=
  ⟨rfl, rfl, rfl, rfl, rfl, rfl⟩

/-! ## Claim C6 -/

/-- C6: on a poller tick whose status carries a defined `progress` (and a
non-empty `message`, which the source requires before it reports
anything), the reported step is `classifyProgress progress`, and
`classifyProgress` realises exactly the claimed thresholds: below 30
analyzing, 30–59 generating, 60–99 rendering, 100 complete. -/
theorem c6_threshold_mapping (s : String) (lg : Option (List String))
    (p : Int) (m : String) (st : HookState) (hne : m ≠ "") :
    (tickProgressUpdate ⟨s, some p, some m, lg⟩ st).processingStatus =
      some ⟨classifyProgress p, p, m⟩ ∧
    (p < 30 → classifyProgress p = Step.analyzing) ∧
    (30 ≤ p → p < 60 → classifyProgress p = Step.generating) ∧
    (60 ≤ p → p < 100 → classifyProgress p = Step.rendering) ∧
    (p = 100 → classifyProgress p = Step.complete) := by
  refine ⟨?_, ?_, ?_, ?_, ?_⟩
  · simp [tickProgressUpdate, hne, updateStatus]
  · intro h
    unfold classifyProgress
    rw [if_pos h]
  · intro h1 h2
    unfold classifyProgress
    rw [if_neg (by omega), if_pos h2]
  · intro h1 h2
    unfold classifyProgress
    rw [if_neg (by omega), if_neg (by omega), if_pos h2]
  · intro h
    unfold classifyProgress
    rw [if_neg (by omega), if_neg (by omega), if_neg (by omega)]

/-- C6, witness for the threshold theorem at a concrete tick. -/
theorem c6_threshold_mapping_witness :
    (("Halfway" : String) ≠ "") ∧
    ((tickProgressUpdate ⟨"processing", some 45, some "Halfway", none⟩
        initState).processingStatus = some ⟨classifyProgress 45, 45, "Halfway"⟩ ∧
     ((45 : Int) < 30 → classifyProgress 45 = Step.analyzing) ∧
     ((30 : Int) ≤ 45 → (45 : Int) < 60 → classifyProgress 45 = Step.generating) ∧
     ((60 : Int) ≤ 45 → (45 : Int) < 100 → classifyProgress 45 = Step.rendering) ∧
     ((45 : Int) = 100 → classifyProgress 45 = Step.complete)) :=
  ⟨by decide,
   c6_threshold_mapping "processing" none 45 "Halfway" initState (by decide)⟩

/-! ## Claim C7 -/

/-- C7: an inbound frame whose payload fails JSON parsing is forwarded
verbatim to `onMessage` by both adapter variants — exactly one callback,
carrying the raw frame text, so no frame is dropped by the decoding
step. -/
theorem c7_unparseable_forwarded_verbatim (raw : String) :
    onmessage_liveApi (.unparseable raw) = [CB.msg raw] ∧
    onmessage_part006 (.unparseable raw) = [CB.msg raw] :=
  ⟨rfl, rfl⟩

/-! ## Claim C8 -/

/-- C8, counterexample: the claim says ProgressState is reset to
analyzing, 0 percent, message "Connecting..."; the source resets it to
analyzing, 10 percent, message "Connecting to generation service...". -/
theorem c8_counterexample :
    (startGenPrelude initState).processingStatus ≠
      some ⟨Step.analyzing, 0, "Connecting..."⟩ := by
  decide

/-- C8, amended: at the start of every live generation attempt the
prelude (run before the start result is consumed) resets ProgressState to
analyzing, 10, "Connecting to generation service...", clears the log
sink and the error, and releases the previous job's resources (transport,
simulator, poller); `startGeneration` in live mode is exactly the
post-start sequence applied to this prelude state. -/
theorem c8_reset_before_start (st : HookState)
    (sr : Except String StartResponse) (mockId : String) (sseOk : Bool) :
    (startGenPrelude st).processingStatus =
      some ⟨Step.analyzing, 10, "Connecting to generation service..."⟩ ∧
    (startGenPrelude st).logs = [] ∧
    (startGenPrelude st).error = none ∧
    (startGenPrelude st).webSocketOpen = false ∧
    (startGenPrelude st).simulatorOn = false ∧
    (startGenPrelude st).pollerOn = false ∧
    startGeneration true sr mockId sseOk st =
      startAfterPrelude sr mockId sseOk (startGenPrelude st) :=
  ⟨rfl, rfl, rfl, rfl, rfl, rfl, rfl⟩

/-! ## Claim C9 -/

/-- C9: a frame whose `log` starts with `ERROR:` fires `onError` but does
not close the channel, so a subsequent frame sequence is delivered
unchanged (its `onMessage` callbacks still fire); by contrast a `DONE:`
frame and the transport-level `onerror` handler both close the
channel. -/
theorem c9_error_frame_keeps_channel_open (l : String) (h0 : l ≠ "")
    (he : startsWithL l "ERROR:" = true) (hd : startsWithL l "DONE:" = false)
    (rest : List SSEEvent) :
    CB.close ∉ onmessage_liveApi (.json ⟨none, some l, none, none⟩) ∧
    runFrames onmessage_liveApi (SSEEvent.json ⟨none, some l, none, none⟩ :: rest) =
      onmessage_liveApi (.json ⟨none, some l, none, none⟩) ++
        runFrames onmessage_liveApi rest ∧
    CB.close ∈ onmessage_liveApi (.json ⟨none, some "DONE:x", none, none⟩) ∧
    CB.close ∈ onerror_cbs := by
  have hout := onmessage_error_frame l h0 he hd
  refine ⟨?_, ?_, by decide, by decide⟩
  · rw [hout]
    simp
  · rw [runFrames, hout]
    simp

/-- C9, witness at a concrete error frame followed by a plain frame. -/
theorem c9_error_frame_keeps_channel_open_witness :
    (("ERROR:oops" : String) ≠ "" ∧ startsWithL "ERROR:oops" "ERROR:" = true ∧
     startsWithL "ERROR:oops" "DONE:" = false) ∧
    (CB.close ∉ onmessage_liveApi (.json ⟨none, some "ERROR:oops", none, none⟩) ∧
     runFrames onmessage_liveApi (SSEEvent.json ⟨none, some "ERROR:oops", none, none⟩ ::
        [SSEEvent.unparseable "next line"]) =
       onmessage_liveApi (.json ⟨none, some "ERROR:oops", none, none⟩) ++
         runFrames onmessage_liveApi [SSEEvent.unparseable "next line"] ∧
     CB.close ∈ onmessage_liveApi (.json ⟨none, some "DONE:x", none, none⟩) ∧
     CB.close ∈ onerror_cbs) :=
  ⟨⟨by decide, by decide, by decide⟩,
   c9_error_frame_keeps_channel_open "ERROR:oops" (by decide) (by decide)
     (by decide) [SSEEvent.unparseable "next line"]⟩

/-! ## Claim C10 -/

/-- C10: calling `startGeneration` while live mode is disabled returns
immediately and changes nothing — the whole hook state (logs, error,
video URL, ProgressState, refs) is returned unmodified, and the result
does not depend on any start response, so no remote start call is
consumed. -/
theorem c10_demo_mode_noop (sr : Except String StartResponse)
    (mockId : String) (sseOk : Bool) (st : HookState) :
    startGeneration false sr mockId sseOk st = st :=
  rfl

end Wanx

